import Mathlib

/-!
Shallow embedding of the customer CRUD API (api/views.py, api/serializers.py,
business/admin.py) together with the parts of the Customer model that the
repository only declares elsewhere.  Databases are lists of customers, HTTP
handlers are pure functions from a request and a database to a response and
the resulting database, and the behaviour of the Django REST framework pieces
used by the source (ChoiceField, ModelSerializer validation, IsAuthenticated,
the published manager) is spelled out explicitly.
-/

namespace SecureApi

/-- Modelled from the spec: `business/models.py` is not among the sources; the
spec (section 3) declares the gender enumeration as short codes with long
labels, M mapping to Male and F mapping to Female.  Django choices are an
ordered association list of code and label. -/
def GENDER_CHOICES : List (String × String) := [("M", "Male"), ("F", "Female")]

/-- Modelled from the spec: the Customer entity of `business/models.py`
(section 3 of the spec): identifier, title, name, last name, gender code,
status code, creation timestamp (an abstract tick), and a nullable creator
reference.  `full_name` is deliberately absent: it is derived at read time. -/
structure Customer where
  id : Nat
  title : String
  name : String
  last_name : String
  gender : String
  status : String
  created : Nat
  created_by : Option Nat
deriving Repr, DecidableEq

/-- The serializer field state relevant to `api/serializers.py`: the declared
choices and the allow-blank flag (Django REST framework stores the choices of
a ChoiceField in an ordered code-to-label mapping). -/
structure ChoiceField where
  choices : List (String × String)
  allow_blank : Bool
deriving Repr, DecidableEq

/-- Validation errors a field can raise: a missing required field, or the
invalid-choice failure of `ChoiceField.to_internal_value`, which carries the
offending input. -/
inductive FieldError where
  | required
  | invalid_choice (input : String)
deriving Repr, DecidableEq

/-- `ChoiceField.to_representation` from api/serializers.py: blank passes
through when blank is allowed, otherwise the stored code is looked up in the
choices mapping (a missing code would raise a KeyError in Python, modelled as
`none`). -/
def ChoiceField.to_representation (f : ChoiceField) (obj : String) : Option String :=
  if obj == "" && f.allow_blank then some obj
  else f.choices.lookup obj

/-- `ChoiceField.to_internal_value` from api/serializers.py: blank passes
through when blank is allowed; otherwise the choices are scanned in order for
the first entry whose label equals the submitted data, returning its code;
with no match the field fails with invalid_choice carrying the input. -/
def ChoiceField.to_internal_value (f : ChoiceField) (data : String) :
    Except FieldError String :=
  if data == "" && f.allow_blank then Except.ok ""
  else
    match f.choices.find? (fun kv => kv.2 == data) with
    | some kv => Except.ok kv.1
    | none => Except.error (FieldError.invalid_choice data)

/-- The gender field of CustomerSerializer: `ChoiceField(Customer.GENDER_CHOICES)`;
allow_blank defaults to false in Django REST framework. -/
def genderField : ChoiceField := { choices := GENDER_CHOICES, allow_blank := false }

/-- `CustomerSerializer.get_full_name`: the Python format string joining name
and last name with a single space. -/
def get_full_name (obj : Customer) : String := obj.name ++ " " ++ obj.last_name

/-- `CustomerAdmin.full_name` from business/admin.py: the same concatenation,
written with the plus operator in the source. -/
def CustomerAdmin_full_name (obj : Customer) : String :=
  obj.name ++ " " ++ obj.last_name

/-- A JSON-ish value of the wire representation.  `keyError` records the
exception Python would raise when `to_representation` meets a code outside
the declared choices. -/
inductive Value where
  | str (v : String)
  | nat (v : Nat)
  | keyError
deriving Repr, DecidableEq

/-- `CustomerSerializer.Meta.fields` from api/serializers.py, verbatim. -/
def Meta_fields : List String := ["id", "full_name", "title", "gender", "created"]

/-- The outbound representation produced by CustomerSerializer: one entry per
Meta field, in order; `full_name` comes from the SerializerMethodField and
`gender` is decoded through the ChoiceField codec. -/
def serializeOut (c : Customer) : List (String × Value) :=
  [("id", Value.nat c.id),
   ("full_name", Value.str (get_full_name c)),
   ("title", Value.str c.title),
   ("gender",
     match genderField.to_representation c.gender with
     | some l => Value.str l
     | none => Value.keyError),
   ("created", Value.nat c.created)]

/-- The data a successful `is_valid` run yields.  Of the fields declared in
Meta, `id` (primary key), `full_name` (SerializerMethodField) and `created`
(set once at creation per the spec) are read only, so the writable inbound
fields of this ModelSerializer are exactly `title` and `gender`. -/
structure ValidatedData where
  title : String
  gender : String
deriving Repr, DecidableEq

/-- `serializer.is_valid()` for CustomerSerializer on an inbound payload:
each writable declared field is required; the gender submission runs through
`ChoiceField.to_internal_value`; failures are collected into a mapping keyed
by field name.  Keys of the payload that are not declared fields are ignored
by the framework. -/
def run_validation (payload : List (String × String)) :
    Except (List (String × FieldError)) ValidatedData :=
  match payload.lookup "title", payload.lookup "gender" with
  | some t, some g =>
    match genderField.to_internal_value g with
    | Except.ok code => Except.ok { title := t, gender := code }
    | Except.error e => Except.error [("gender", e)]
  | none, some g =>
    match genderField.to_internal_value g with
    | Except.ok _ => Except.error [("title", FieldError.required)]
    | Except.error e => Except.error [("title", FieldError.required), ("gender", e)]
  | some _, none => Except.error [("gender", FieldError.required)]
  | none, none =>
    Except.error [("title", FieldError.required), ("gender", FieldError.required)]

/-- A fresh primary key for an insert: one past the largest id in the table. -/
def nextId (db : List Customer) : Nat :=
  (db.foldl (fun m c => max m c.id) 0) + 1

/-- `serializer.save()` on a create: only the validated fields (title and the
decoded gender code) come from the payload; every other column takes its
storage default.  Modelled from the spec for the absent model file: free-text
columns default to the empty string and a fresh record may be drafted
(section 4.3), so status defaults to draft; `created` is assigned once from
the current tick and `created_by` is nullable and not set by this view. -/
def createCustomer (v : ValidatedData) (freshId : Nat) (now : Nat) : Customer :=
  { id := freshId, title := v.title, name := "", last_name := "",
    gender := v.gender, status := "draft", created := now, created_by := none }

/-- `serializer.save()` on an update of an existing record: the writable
fields are overwritten, everything else (id, created, the undeclared columns)
is untouched. -/
def updateCustomer (c : Customer) (v : ValidatedData) : Customer :=
  { c with title := v.title, gender := v.gender }

/-- Modelled from the spec: the `published` model manager used by every read
path (`Customer.published`), restricting the queryable set to records whose
status equals published. -/
def publishedAll (db : List Customer) : List Customer :=
  db.filter (fun c => c.status == "published")

/-- The `Customer.DoesNotExist` exception raised by a failed `get`. -/
inductive DoesNotExist where
  | mk
deriving Repr, DecidableEq

/-- `Customer.published.get(pk=pk)`: the first published record with the
given primary key, or the DoesNotExist exception. -/
def publishedGet (db : List Customer) (pk : Nat) : Except DoesNotExist Customer :=
  match (publishedAll db).find? (fun c => c.id == pk) with
  | some c => Except.ok c
  | none => Except.error DoesNotExist.mk

/-- A response body: a serialized object, a serialized list, a field-error
mapping, the one-key message object used by the not-found wrapper, or no body
at all. -/
inductive Body where
  | json (fields : List (String × Value))
  | jsonList (items : List (List (String × Value)))
  | errors (errs : List (String × FieldError))
  | message (m : String)
  | empty
deriving Repr, DecidableEq

/-- An HTTP response: numeric status and body. -/
structure Response where
  status : Nat
  body : Body
deriving Repr, DecidableEq

/-- An inbound request: whether the token check of the Auth Gate succeeded,
and the parsed payload. -/
structure Request where
  authenticated : Bool
  data : List (String × String)
deriving Repr, DecidableEq

/-- Modelled from the spec: the IsAuthenticated permission class consulted by
both views rejects a request lacking a valid token with status 401 before the
handler body runs. -/
def unauthorizedResponse : Response :=
  { status := 401, body := Body.message "Unauthorized" }

/-- The uniform not-found response produced inside `resource_checker`:
status 204 with the one-key message body. -/
def notFoundResponse : Response :=
  { status := 204, body := Body.message "Not Found" }

/-- `resource_checker` from api/views.py: the decorator runs the wrapped
handler body and intercepts the DoesNotExist exception, converting it into
the uniform not-found response (the database is untouched because the
exception fires before any mutation). -/
def resource_checker (db : List Customer)
    (handlerBody : Except DoesNotExist (Response × List Customer)) :
    Response × List Customer :=
  match handlerBody with
  | Except.ok r => r
  | Except.error _ => (notFoundResponse, db)

/-- `CustomerView.get`: list all published customers, serialized. -/
def CustomerView_get (req : Request) (db : List Customer) :
    Response × List Customer :=
  if req.authenticated then
    ({ status := 200, body := Body.jsonList ((publishedAll db).map serializeOut) }, db)
  else (unauthorizedResponse, db)

/-- `CustomerView.post`: validate the payload; on success persist the new
record and answer 201 with its serialization; on failure answer 400 with the
error mapping and persist nothing. -/
def CustomerView_post (req : Request) (db : List Customer) (now : Nat) :
    Response × List Customer :=
  if req.authenticated then
    match run_validation req.data with
    | Except.ok v =>
      let c := createCustomer v (nextId db) now
      ({ status := 201, body := Body.json (serializeOut c) }, db ++ [c])
    | Except.error errs =>
      ({ status := 400, body := Body.errors errs }, db)
  else (unauthorizedResponse, db)

/-- `CustomerDetailView.get`, wrapped by the resource checker: fetch the
published record by primary key and serialize it. -/
def CustomerDetailView_get (req : Request) (pk : Nat) (db : List Customer) :
    Response × List Customer :=
  if req.authenticated then
    resource_checker db (do
      let c ← publishedGet db pk
      pure ({ status := 200, body := Body.json (serializeOut c) }, db))
  else (unauthorizedResponse, db)

/-- `CustomerDetailView.put`, wrapped by the resource checker: fetch the
published record, revalidate the full payload, persist on success (200 with
the updated serialization) or answer 400 with the errors. -/
def CustomerDetailView_put (req : Request) (pk : Nat) (db : List Customer) :
    Response × List Customer :=
  if req.authenticated then
    resource_checker db (do
      let c ← publishedGet db pk
      match run_validation req.data with
      | Except.ok v =>
        let c2 := updateCustomer c v
        pure ({ status := 200, body := Body.json (serializeOut c2) },
              db.map (fun x => if x.id == c.id then c2 else x))
      | Except.error errs =>
        pure ({ status := 400, body := Body.errors errs }, db))
  else (unauthorizedResponse, db)

/-- `CustomerDetailView.delete`, wrapped by the resource checker: fetch the
published record, physically remove its row, answer 204 with no body. -/
def CustomerDetailView_delete (req : Request) (pk : Nat) (db : List Customer) :
    Response × List Customer :=
  if req.authenticated then
    resource_checker db (do
      let c ← publishedGet db pk
      pure ({ status := 204, body := Body.empty }, db.filter (fun x => x.id != c.id)))
  else (unauthorizedResponse, db)

/-- The creation payload of the repository's own test
`test_post_customer_authenticated`, with the gender given in label form as
the serializer demands. -/
def testPayload : List (String × String) :=
  [("title", "Mr"), ("name", "Peter"), ("last_name", "Parkerz"),
   ("gender", "Male"), ("status", "published")]

/-- A published sample row, mirroring the record the detail-view tests set
up. -/
def sampleCustomer : Customer :=
  { id := 1, title := "Mrs", name := "Johnson", last_name := "MOrisee",
    gender := "F", status := "published", created := 0, created_by := none }

/-- A draft sample row. -/
def draftCustomer : Customer :=
  { id := 2, title := "Mr", name := "Peter", last_name := "Parkerz",
    gender := "M", status := "draft", created := 0, created_by := none }

/-- A request carrying a valid token and an empty payload. -/
def authReq : Request := { authenticated := true, data := [] }

instance {ε α : Type} [DecidableEq ε] [DecidableEq α] :
    DecidableEq (Except ε α) := fun a b =>
  match a, b with
  | Except.ok x, Except.ok y => decidable_of_iff (x = y) (by simp)
  | Except.ok _, Except.error _ => Decidable.isFalse (fun h => Except.noConfusion h)
  | Except.error _, Except.ok _ => Decidable.isFalse (fun h => Except.noConfusion h)
  | Except.error e, Except.error e2 => decidable_of_iff (e = e2) (by simp)

/-! Sanity checks on concrete inputs. -/

example : genderField.to_internal_value "Male" = Except.ok "M" := by decide

example : genderField.to_representation "F" = some "Female" := by decide

example : publishedGet [] 3 = Except.error DoesNotExist.mk := by decide

/-- Shared helper: with a valid token and no published record at the key, all
three detail handlers come back through the decorator with the uniform
not-found response and an unchanged database. -/
lemma detail_handlers_notFound (req : Request) (pk : Nat) (db : List Customer)
    (hauth : req.authenticated = true)
    (hmiss : publishedGet db pk = Except.error DoesNotExist.mk) :
    CustomerDetailView_get req pk db = (notFoundResponse, db) ∧
    CustomerDetailView_put req pk db = (notFoundResponse, db) ∧
    CustomerDetailView_delete req pk db = (notFoundResponse, db) := by
  unfold CustomerDetailView_get CustomerDetailView_put CustomerDetailView_delete
  rw [hauth]
  simp only [if_true, hmiss, resource_checker, bind, Except.bind]
  exact ⟨trivial, trivial, trivial⟩

/-- C1: read, update and delete on an identifier with no published customer
all answer through the one shared `resource_checker` wrapper with the same
uniform not-found signal, HTTP 204; the handler bodies themselves raise
DoesNotExist and never treat the missing-entity case. -/
theorem c1_detail_notFound_uniform (req : Request) (pk : Nat) (db : List Customer)
    (hauth : req.authenticated = true)
    (hmiss : publishedGet db pk = Except.error DoesNotExist.mk) :
    CustomerDetailView_get req pk db = (notFoundResponse, db) ∧
    CustomerDetailView_put req pk db = (notFoundResponse, db) ∧
    CustomerDetailView_delete req pk db = (notFoundResponse, db) ∧
    notFoundResponse.status = 204 :=
  ⟨(detail_handlers_notFound req pk db hauth hmiss).1,
   (detail_handlers_notFound req pk db hauth hmiss).2.1,
   (detail_handlers_notFound req pk db hauth hmiss).2.2, rfl⟩

/-- Witness for C1 at the empty database and key 1. -/
theorem c1_witness :
    CustomerDetailView_get { authenticated := true, data := [] } 1 [] =
      (notFoundResponse, []) ∧
    CustomerDetailView_put { authenticated := true, data := [] } 1 [] =
      (notFoundResponse, []) ∧
    CustomerDetailView_delete { authenticated := true, data := [] } 1 [] =
      (notFoundResponse, []) ∧
    notFoundResponse.status = 204 :=
  c1_detail_notFound_uniform { authenticated := true, data := [] } 1 []
    (by decide) (by decide)

/-- C2: for every declared gender code, encoding it outbound to its label and
decoding that label inbound yields the original code back. -/
theorem c2_gender_roundtrip (code : String)
    (hc : code ∈ GENDER_CHOICES.map Prod.fst) :
    ∃ label, genderField.to_representation code = some label ∧
      genderField.to_internal_value label = Except.ok code := by
  simp only [GENDER_CHOICES, List.map, List.mem_cons, List.not_mem_nil, or_false]
    at hc
  rcases hc with h | h <;> subst h
  · exact ⟨"Male", by decide, by decide⟩
  · exact ⟨"Female", by decide, by decide⟩

/-- Witness for C2 at the code M. -/
theorem c2_witness :
    "M" ∈ GENDER_CHOICES.map Prod.fst ∧
    ∃ label, genderField.to_representation "M" = some label ∧
      genderField.to_internal_value label = Except.ok "M" :=
  ⟨by decide, c2_gender_roundtrip "M" (by decide)⟩

/-- C6: for every customer, the outbound `full_name` entry is the name and
the last name joined by a single space, identical to the admin-panel derived
column; the Customer record itself stores no such field, it is computed at
serialization time. -/
theorem c6_full_name_concat (c : Customer) :
    (serializeOut c).lookup "full_name" =
      some (Value.str (c.name ++ " " ++ c.last_name)) ∧
    get_full_name c = CustomerAdmin_full_name c := by
  constructor
  · simp [serializeOut, get_full_name, List.lookup]
  · rfl

/-- Shared helper: a submission matching no declared label (blank is not
permitted on the gender field) makes the codec fail with invalid_choice
carrying the offending input. -/
lemma to_internal_value_invalid (g : String)
    (hmiss : ∀ kv ∈ GENDER_CHOICES, kv.2 ≠ g) :
    genderField.to_internal_value g =
      Except.error (FieldError.invalid_choice g) := by
  unfold ChoiceField.to_internal_value
  have hfind : GENDER_CHOICES.find? (fun kv => kv.2 == g) = none := by
    rw [List.find?_eq_none]
    intro kv hkv
    simpa using hmiss kv hkv
  simp [genderField, hfind]

/-- C3: an inbound gender submission equal to no declared label fails the
codec with an invalid_choice error carrying the input, and both the create
request and the update request (here aimed at an existing published record)
answer 400 with an error mapping keyed by the field name, leaving the stored
data unchanged. -/
theorem c3_invalid_choice_rejected (req : Request) (db : List Customer)
    (now pk : Nat) (c : Customer) (t g : String)
    (hauth : req.authenticated = true)
    (ht : req.data.lookup "title" = some t)
    (hg : req.data.lookup "gender" = some g)
    (hmiss : ∀ kv ∈ GENDER_CHOICES, kv.2 ≠ g)
    (hfound : publishedGet db pk = Except.ok c) :
    genderField.to_internal_value g =
      Except.error (FieldError.invalid_choice g) ∧
    CustomerView_post req db now =
      ({ status := 400,
         body := Body.errors [("gender", FieldError.invalid_choice g)] }, db) ∧
    CustomerDetailView_put req pk db =
      ({ status := 400,
         body := Body.errors [("gender", FieldError.invalid_choice g)] }, db) := by
  have hiv := to_internal_value_invalid g hmiss
  have hrv : run_validation req.data =
      Except.error [("gender", FieldError.invalid_choice g)] := by
    unfold run_validation
    rw [ht, hg]
    simp [hiv]
  refine ⟨hiv, ?_, ?_⟩
  · unfold CustomerView_post
    rw [hauth]
    simp [hrv]
  · unfold CustomerDetailView_put
    rw [hauth]
    simp [bind, Except.bind, pure, Except.pure, hfound, hrv, resource_checker]

/-- Witness for C3 at a submission that is neither label, against a one-row
database holding a published record. -/
theorem c3_witness :
    genderField.to_internal_value "Helicopter" =
      Except.error (FieldError.invalid_choice "Helicopter") ∧
    CustomerView_post
        { authenticated := true,
          data := [("title", "Mr"), ("gender", "Helicopter")] }
        [sampleCustomer] 0 =
      ({ status := 400,
         body := Body.errors
           [("gender", FieldError.invalid_choice "Helicopter")] },
       [sampleCustomer]) ∧
    CustomerDetailView_put
        { authenticated := true,
          data := [("title", "Mr"), ("gender", "Helicopter")] }
        1 [sampleCustomer] =
      ({ status := 400,
         body := Body.errors
           [("gender", FieldError.invalid_choice "Helicopter")] },
       [sampleCustomer]) :=
  c3_invalid_choice_rejected
    { authenticated := true, data := [("title", "Mr"), ("gender", "Helicopter")] }
    [sampleCustomer] 0 1 sampleCustomer "Mr" "Helicopter"
    (by decide) (by decide) (by decide) (by decide) (by decide)

/-- C4, evaluated at the failing input: the repository's own creation payload
(the one its test suite posts, with gender in label form) is accepted with
201, yet the persisted record keeps the storage defaults for name, last name
and status because the serializer declares none of them; the declared field
list indeed omits them.  This contradicts both the claim and the repository's
tests, which assert that the posted name is persisted and echoed back. -/
theorem c4_create_drops_undeclared_fields :
    (CustomerView_post { authenticated := true, data := testPayload } [] 0).1.status
        = 201 ∧
    (CustomerView_post { authenticated := true, data := testPayload } [] 0).2 =
      [{ id := 1, title := "Mr", name := "", last_name := "", gender := "M",
         status := "draft", created := 0, created_by := none }] ∧
    "name" ∉ Meta_fields ∧ "last_name" ∉ Meta_fields ∧ "status" ∉ Meta_fields := by
  decide

/-- C5: a draft customer is excluded from the published set, so the list
endpoint (which serializes exactly that set) never includes it, and all
three detail operations on its identifier take the not-found path, for every
authenticated requester; identifier uniqueness is the usual primary-key
hypothesis. -/
theorem c5_draft_invisible (req : Request) (db : List Customer) (c : Customer)
    (hauth : req.authenticated = true)
    (_hmem : c ∈ db) (hdraft : c.status = "draft")
    (huniq : ∀ c2 ∈ db, c2.id = c.id → c2 = c) :
    c ∉ publishedAll db ∧
    CustomerView_get req db =
      ({ status := 200,
         body := Body.jsonList ((publishedAll db).map serializeOut) }, db) ∧
    CustomerDetailView_get req c.id db = (notFoundResponse, db) ∧
    CustomerDetailView_put req c.id db = (notFoundResponse, db) ∧
    CustomerDetailView_delete req c.id db = (notFoundResponse, db) := by
  have hmiss : publishedGet db c.id = Except.error DoesNotExist.mk := by
    unfold publishedGet
    have hfind : (publishedAll db).find? (fun x => x.id == c.id) = none := by
      rw [List.find?_eq_none]
      intro x hx
      simp only [beq_iff_eq]
      intro hid
      unfold publishedAll at hx
      rcases List.mem_filter.mp hx with ⟨hxdb, hpub⟩
      have hxc : x = c := huniq x hxdb hid
      rw [hxc, hdraft] at hpub
      exact absurd hpub (by decide)
    rw [hfind]
  have h3 := detail_handlers_notFound req c.id db hauth hmiss
  refine ⟨?_, ?_, h3.1, h3.2.1, h3.2.2⟩
  · intro hc
    unfold publishedAll at hc
    rcases List.mem_filter.mp hc with ⟨_, hpub⟩
    rw [hdraft] at hpub
    exact absurd hpub (by decide)
  · unfold CustomerView_get
    rw [hauth]
    simp

/-- Witness for C5 at a one-row database holding only a draft record. -/
theorem c5_witness :
    draftCustomer ∉ publishedAll [draftCustomer] ∧
    CustomerView_get authReq [draftCustomer] =
      ({ status := 200,
         body := Body.jsonList ((publishedAll [draftCustomer]).map serializeOut) },
       [draftCustomer]) ∧
    CustomerDetailView_get authReq draftCustomer.id [draftCustomer] =
      (notFoundResponse, [draftCustomer]) ∧
    CustomerDetailView_put authReq draftCustomer.id [draftCustomer] =
      (notFoundResponse, [draftCustomer]) ∧
    CustomerDetailView_delete authReq draftCustomer.id [draftCustomer] =
      (notFoundResponse, [draftCustomer]) :=
  c5_draft_invisible authReq [draftCustomer] draftCustomer
    (by decide) (by decide) (by decide) (by decide)

/-- C9: without a valid token, every endpoint answers 401 and leaves the
stored data unchanged; the permission gate fires before any entity access. -/
theorem c9_unauthenticated_401 (req : Request) (pk : Nat) (db : List Customer)
    (now : Nat)
    (hanon : req.authenticated = false) :
    CustomerView_get req db = (unauthorizedResponse, db) ∧
    CustomerView_post req db now = (unauthorizedResponse, db) ∧
    CustomerDetailView_get req pk db = (unauthorizedResponse, db) ∧
    CustomerDetailView_put req pk db = (unauthorizedResponse, db) ∧
    CustomerDetailView_delete req pk db = (unauthorizedResponse, db) ∧
    unauthorizedResponse.status = 401 := by
  unfold CustomerView_get CustomerView_post CustomerDetailView_get
    CustomerDetailView_put CustomerDetailView_delete
  rw [hanon]
  simp [unauthorizedResponse]

/-- Witness for C9 on an anonymous request against the sample database. -/
theorem c9_witness :
    CustomerView_get { authenticated := false, data := [] } [sampleCustomer] =
      (unauthorizedResponse, [sampleCustomer]) ∧
    CustomerView_post { authenticated := false, data := [] } [sampleCustomer] 0 =
      (unauthorizedResponse, [sampleCustomer]) ∧
    CustomerDetailView_get { authenticated := false, data := [] } 1 [sampleCustomer] =
      (unauthorizedResponse, [sampleCustomer]) ∧
    CustomerDetailView_put { authenticated := false, data := [] } 1 [sampleCustomer] =
      (unauthorizedResponse, [sampleCustomer]) ∧
    CustomerDetailView_delete { authenticated := false, data := [] } 1 [sampleCustomer] =
      (unauthorizedResponse, [sampleCustomer]) ∧
    unauthorizedResponse.status = 401 :=
  c9_unauthenticated_401 { authenticated := false, data := [] } 1
    [sampleCustomer] 0 (by decide)

/-- Shared helper: a successful inbound decode can only have produced one of
the two declared codes, from its matching label. -/
lemma to_internal_value_ok_cases (g code : String)
    (h : genderField.to_internal_value g = Except.ok code) :
    (code = "M" ∧ g = "Male") ∨ (code = "F" ∧ g = "Female") := by
  unfold ChoiceField.to_internal_value at h
  simp only [genderField, Bool.and_false, Bool.false_eq_true, if_false] at h
  rcases hf : GENDER_CHOICES.find? (fun kv => kv.2 == g) with _ | kv
  · rw [hf] at h; cases h
  · rw [hf] at h
    have hmem : kv ∈ GENDER_CHOICES := List.mem_of_find?_eq_some hf
    have hp := List.find?_some hf
    have hcode : kv.1 = code := by simpa using h
    have hg : kv.2 = g := by simpa using hp
    simp only [GENDER_CHOICES, List.mem_cons, List.not_mem_nil, or_false] at hmem
    rcases hmem with hkv | hkv <;> subst hkv
    · exact Or.inl ⟨hcode.symm, hg.symm⟩
    · exact Or.inr ⟨hcode.symm, hg.symm⟩

/-- Shared helper: the gender entry of the outbound representation is the
codec-decoded label of the stored code. -/
lemma serializeOut_gender_label (c : Customer) (label : String)
    (h : genderField.to_representation c.gender = some label) :
    (serializeOut c).lookup "gender" = some (Value.str label) := by
  simp [serializeOut, List.lookup, h]

/-- C7: every valid creation payload is answered with 201 and the serialized
new record; the representation's keys are exactly the declared Meta fields
(id, full_name, title, gender, created) and its gender entry carries the
codec-decoded label of the stored code. -/
theorem c7_create_response_schema (req : Request) (db : List Customer)
    (now : Nat) (v : ValidatedData)
    (hauth : req.authenticated = true)
    (hvalid : run_validation req.data = Except.ok v) :
    CustomerView_post req db now =
      ({ status := 201,
         body := Body.json (serializeOut (createCustomer v (nextId db) now)) },
       db ++ [createCustomer v (nextId db) now]) ∧
    (serializeOut (createCustomer v (nextId db) now)).map Prod.fst = Meta_fields ∧
    ∃ label, (v.gender, label) ∈ GENDER_CHOICES ∧
      (serializeOut (createCustomer v (nextId db) now)).lookup "gender" =
        some (Value.str label) := by
  refine ⟨?_, rfl, ?_⟩
  · unfold CustomerView_post
    rw [hauth, hvalid]
    simp
  · have hg : ∃ g, genderField.to_internal_value g = Except.ok v.gender := by
      unfold run_validation at hvalid
      split at hvalid
      · rename_i t g ht hgl
        split at hvalid
        · rename_i code heq
          injection hvalid with h
          refine ⟨g, ?_⟩
          rw [← h]
          exact heq
        · simp at hvalid
      · split at hvalid <;> simp at hvalid
      · simp at hvalid
      · simp at hvalid
    rcases hg with ⟨g, hiv⟩
    rcases to_internal_value_ok_cases g v.gender hiv with ⟨hc, _⟩ | ⟨hc, _⟩
    · refine ⟨"Male", by rw [hc]; decide, ?_⟩
      apply serializeOut_gender_label
      show genderField.to_representation v.gender = some "Male"
      rw [hc]; decide
    · refine ⟨"Female", by rw [hc]; decide, ?_⟩
      apply serializeOut_gender_label
      show genderField.to_representation v.gender = some "Female"
      rw [hc]; decide

/-- Witness for C7 at a concrete valid creation payload. -/
theorem c7_witness :
    CustomerView_post
        { authenticated := true, data := [("title", "Mr"), ("gender", "Male")] }
        [] 0 =
      ({ status := 201,
         body := Body.json
           (serializeOut
             (createCustomer { title := "Mr", gender := "M" } (nextId []) 0)) },
       [] ++ [createCustomer { title := "Mr", gender := "M" } (nextId []) 0]) ∧
    (serializeOut
        (createCustomer { title := "Mr", gender := "M" } (nextId []) 0)).map
          Prod.fst = Meta_fields ∧
    ∃ label,
      ((({ title := "Mr", gender := "M" } : ValidatedData).gender, label) ∈
        GENDER_CHOICES) ∧
      (serializeOut
          (createCustomer { title := "Mr", gender := "M" } (nextId []) 0)).lookup
            "gender" = some (Value.str label) :=
  c7_create_response_schema
    { authenticated := true, data := [("title", "Mr"), ("gender", "Male")] }
    [] 0 { title := "Mr", gender := "M" } (by decide) (by decide)

/-- C8: deleting an existing published customer answers 204 with an empty
body and physically removes the row, after which a read of the same
identifier takes the not-found path. -/
theorem c8_delete_then_get_notFound (req : Request) (pk : Nat)
    (db : List Customer) (c : Customer)
    (hauth : req.authenticated = true)
    (hfound : publishedGet db pk = Except.ok c) :
    CustomerDetailView_delete req pk db =
      ({ status := 204, body := Body.empty },
       db.filter (fun x => x.id != c.id)) ∧
    c ∉ db.filter (fun x => x.id != c.id) ∧
    CustomerDetailView_get req pk (db.filter (fun x => x.id != c.id)) =
      (notFoundResponse, db.filter (fun x => x.id != c.id)) := by
  have hid : c.id = pk := by
    unfold publishedGet at hfound
    rcases hf : (publishedAll db).find? (fun x => x.id == pk) with _ | x
    · rw [hf] at hfound; cases hfound
    · rw [hf] at hfound
      have hx := List.find?_some hf
      have hxc : x = c := by simpa using hfound
      subst hxc
      simpa using hx
  refine ⟨?_, ?_, ?_⟩
  · unfold CustomerDetailView_delete
    rw [hauth]
    simp [bind, Except.bind, pure, Except.pure, hfound, resource_checker]
  · intro hc
    rcases List.mem_filter.mp hc with ⟨_, hne⟩
    simp at hne
  · have hmiss2 : publishedGet (db.filter (fun x => x.id != c.id)) pk =
        Except.error DoesNotExist.mk := by
      unfold publishedGet
      have hfind : (publishedAll (db.filter (fun x => x.id != c.id))).find?
          (fun x => x.id == pk) = none := by
        rw [List.find?_eq_none]
        intro x hx
        unfold publishedAll at hx
        rcases List.mem_filter.mp hx with ⟨hx1, _⟩
        rcases List.mem_filter.mp hx1 with ⟨_, hne⟩
        simp only [beq_iff_eq]
        rw [← hid]
        simpa using hne
      rw [hfind]
    exact (detail_handlers_notFound req pk _ hauth hmiss2).1

/-- Witness for C8 at a one-row database holding a published record. -/
theorem c8_witness :
    CustomerDetailView_delete authReq 1 [sampleCustomer] =
      ({ status := 204, body := Body.empty },
       [sampleCustomer].filter (fun x => x.id != sampleCustomer.id)) ∧
    sampleCustomer ∉ [sampleCustomer].filter (fun x => x.id != sampleCustomer.id) ∧
    CustomerDetailView_get authReq 1
        ([sampleCustomer].filter (fun x => x.id != sampleCustomer.id)) =
      (notFoundResponse,
       [sampleCustomer].filter (fun x => x.id != sampleCustomer.id)) :=
  c8_delete_then_get_notFound authReq 1 [sampleCustomer] sampleCustomer
    (by decide) (by decide)

/-- C10: the not-found branch of delete and the success branch of delete
share the status code 204 and differ only in the body, the former carrying
the one-key Not Found message and the latter carrying no body; status alone
cannot distinguish them. -/
theorem c10_delete_success_vs_notfound (req : Request) (pk pkMissing : Nat)
    (db : List Customer) (c : Customer)
    (hauth : req.authenticated = true)
    (hfound : publishedGet db pk = Except.ok c)
    (hmiss : publishedGet db pkMissing = Except.error DoesNotExist.mk) :
    (CustomerDetailView_delete req pk db).1 =
      { status := 204, body := Body.empty } ∧
    (CustomerDetailView_delete req pkMissing db).1 =
      { status := 204, body := Body.message "Not Found" } ∧
    (CustomerDetailView_delete req pk db).1.status =
      (CustomerDetailView_delete req pkMissing db).1.status ∧
    (CustomerDetailView_delete req pk db).1.body ≠
      (CustomerDetailView_delete req pkMissing db).1.body := by
  have h1 : (CustomerDetailView_delete req pk db).1 =
      { status := 204, body := Body.empty } := by
    unfold CustomerDetailView_delete
    rw [hauth]
    simp [bind, Except.bind, pure, Except.pure, hfound, resource_checker]
  have h2 : (CustomerDetailView_delete req pkMissing db).1 =
      { status := 204, body := Body.message "Not Found" } := by
    unfold CustomerDetailView_delete
    rw [hauth]
    simp [bind, Except.bind, hmiss, resource_checker, notFoundResponse]
  refine ⟨h1, h2, ?_, ?_⟩
  · rw [h1, h2]
  · rw [h1, h2]
    decide

/-- Witness for C10 at a one-row database, deleting key 1 (present) and
key 2 (absent). -/
theorem c10_witness :
    (CustomerDetailView_delete authReq 1 [sampleCustomer]).1 =
      { status := 204, body := Body.empty } ∧
    (CustomerDetailView_delete authReq 2 [sampleCustomer]).1 =
      { status := 204, body := Body.message "Not Found" } ∧
    (CustomerDetailView_delete authReq 1 [sampleCustomer]).1.status =
      (CustomerDetailView_delete authReq 2 [sampleCustomer]).1.status ∧
    (CustomerDetailView_delete authReq 1 [sampleCustomer]).1.body ≠
      (CustomerDetailView_delete authReq 2 [sampleCustomer]).1.body :=
  c10_delete_success_vs_notfound authReq 1 2 [sampleCustomer] sampleCustomer
    (by decide) (by decide) (by decide)

end SecureApi
